import Mathlib

/-!
Verification development for the Celery media processing platform backend.

The definitions below are a shallow embedding of the Python sources:
`backend/app/tasks.py` (pipeline stages, task-store updates, retry policy),
`backend/app/main.py` (admission control, websocket status stream) and
`backend/app/storage.py` (object storage upload with local-path fallback).
Machine-level effects (database sessions, actual file I/O, PIL/ffmpeg pixel
work, wall-clock backoff delays) are abstracted into explicit state passing
and environment records; the control flow, field updates and error
classification follow the source line by line.
-/

/-- One labelled variant in the finalize outputs: models an element of
the Python list `[{"label": x["label"], "url": x["url"]} for x in ctx["uploaded"]]`
built in `finalize_success` (tasks.py). -/
structure VariantOutput where
  label : String
  url : String
deriving Repr, DecidableEq

/-- The structured `outputs` mapping assembled by `finalize_success`:
`{"thumbnail": ctx["thumbnail_url"], "variants": [...]}`. The row's JSONB
column defaults to the empty dict; we model the column as `Option TaskOutputs`
with `none` standing for the initial empty dict. -/
structure TaskOutputs where
  thumbnail : String
  variants : List VariantOutput
deriving Repr, DecidableEq

/-- A row of the `media_tasks` table (models.py, class MediaTask).
Timestamps are modelled as abstract Nat instants; `created_at` is immutable
after creation so we keep only `updated_at`. -/
structure MediaTaskRow where
  id : String
  user_id : String
  original_filename : String
  status : String
  progress : Nat
  celery_task_id : Option String
  source_path : String
  thumbnail_path : Option String
  outputs : Option TaskOutputs
  error_message : Option String
  updated_at : Nat
deriving Repr, DecidableEq

/-- The optional keyword arguments of `update_media_row` (tasks.py lines
55-62): each is `None` (here `none`) when the caller does not provide it. -/
structure UpdateFields where
  status : Option String
  progress : Option Nat
  outputs : Option TaskOutputs
  error_message : Option String
  thumbnail_path : Option String
deriving Repr, DecidableEq

/-- An UpdateFields value with nothing provided; callers override the
fields they pass, mirroring Python keyword arguments left at None. -/
def noFields : UpdateFields :=
  { status := none, progress := none, outputs := none,
    error_message := none, thumbnail_path := none }

/-- True when at least one keyword argument was provided (the ORM only
issues an UPDATE, and hence bumps `updated_at`, when some attribute
actually changed). -/
def UpdateFields.hasAny (f : UpdateFields) : Bool :=
  f.status.isSome || f.progress.isSome || f.outputs.isSome ||
    f.error_message.isSome || f.thumbnail_path.isSome

/-- Body of `update_media_row` on a found row (tasks.py lines 68-78): each
`if x is not None: row.x = x` guard becomes an Option match; `updated_at`
is bumped by the commit when a field changed. Note the source applies the
provided fields unconditionally: there is no check of the row's current
status before overwriting. -/
def applyFields (r : MediaTaskRow) (f : UpdateFields) (now : Nat) : MediaTaskRow :=
  if f.hasAny then
    { r with
      status := f.status.getD r.status
      progress := f.progress.getD r.progress
      outputs := match f.outputs with | some o => some o | none => r.outputs
      error_message := match f.error_message with | some e => some e | none => r.error_message
      thumbnail_path := match f.thumbnail_path with | some p => some p | none => r.thumbnail_path
      updated_at := now }
  else r

/-- The task-store state: the list of media_tasks rows. Row ids are the
primary key; db.get is the first row carrying the id. -/
def findRow : List MediaTaskRow → String → Option MediaTaskRow
  | [], _ => none
  | r :: rest, media_task_id =>
    if r.id == media_task_id then some r else findRow rest media_task_id

/-- Embedding of `update_media_row` (tasks.py lines 55-80): look the row up
by id; if absent, return with the store unchanged; otherwise apply exactly
the provided fields to that row and commit. -/
def update_media_row (store : List MediaTaskRow) (media_task_id : String)
    (f : UpdateFields) (now : Nat) : List MediaTaskRow :=
  match findRow store media_task_id with
  | none => store
  | some _ => store.map (fun r => if r.id == media_task_id then applyFields r f now else r)

/-- A concrete terminal (completed) row used to evaluate the store update
behaviour on terminal rows. -/
def completedRow : MediaTaskRow :=
  { id := "t1", user_id := "alice", original_filename := "a.jpg",
    status := "completed", progress := 100, celery_task_id := some "c1",
    source_path := "/tmp/media/input/t1_a.jpg",
    thumbnail_path := some "/tmp/media/thumb/t1_a_thumb.jpg",
    outputs := some { thumbnail := "u", variants := [] },
    error_message := none, updated_at := 7 }

/-- A concrete row in a failed terminal state. -/
def failedRow : MediaTaskRow :=
  { id := "t2", user_id := "bob", original_filename := "b.mp4",
    status := "failed", progress := 25, celery_task_id := some "c2",
    source_path := "/tmp/media/input/t2_b.mp4", thumbnail_path := none,
    outputs := none, error_message := some "Failed to convert 1080p",
    updated_at := 9 }

/-! Path helpers mirroring the pathlib operations used by the stages:
Path(p).name, Path(p).stem, Path(p).suffix and Path(p).with_name(n), for
ordinary file names (no trailing slash, name not starting with a dot). -/

/-- Splits a character list at every occurrence of sep, keeping empty
pieces; structurally recursive so that proofs can evaluate it. -/
def splitOnCharAux (sep : Char) : List Char → List Char × List (List Char)
  | [] => ([], [])
  | c :: rest =>
    let (cur, out) := splitOnCharAux sep rest
    if c == sep then ([], cur :: out) else (c :: cur, out)

/-- The pieces of a string between occurrences of sep. -/
def splitOnChar (sep : Char) (s : String) : List String :=
  let (cur, out) := splitOnCharAux sep s.toList
  (cur :: out).map String.mk

/-- Joins pieces with a separator. -/
def joinWith (sep : String) : List String → String
  | [] => ""
  | [x] => x
  | x :: xs => x ++ sep ++ joinWith sep xs

/-- Lowercases every character, as str.lower does on ASCII names. -/
def lowerString (s : String) : String := String.mk (s.toList.map Char.toLower)

/-- Models Path(p).name: the final path component. -/
def baseName (p : String) : String :=
  (((splitOnChar '/' p)).getLast?).getD p

/-- Splits a file name into (stem, suffix): "a_1080p.jpg" gives
("a_1080p", ".jpg") and "noext" gives ("noext", ""). -/
def splitName (name : String) : String × String :=
  match splitOnChar '.' name with
  | [x] => (x, "")
  | parts => (joinWith "." parts.dropLast, "." ++ (parts.getLast?).getD "")

/-- Models Path(p).stem. -/
def pathStem (p : String) : String := (splitName (baseName p)).1

/-- Models Path(p).suffix. -/
def pathSuffix (p : String) : String := (splitName (baseName p)).2

/-- Models Path(p).with_name(new): replace the final component. -/
def withName (p new : String) : String :=
  match (splitOnChar '/' p).dropLast with
  | [] => new
  | ds => joinWith "/" ds ++ "/" ++ new

/-! Configuration defaults from config.py (class Settings). -/

/-- Settings.max_active_tasks_per_user default. -/
def max_active_tasks_per_user : Nat := 3

/-- Settings.media_root derived directories. -/
def media_input_dir : String := "/tmp/media/input"

/-- Output directory for converted and watermarked variants. -/
def media_output_dir : String := "/tmp/media/output"

/-- Thumbnail directory. -/
def media_thumb_dir : String := "/tmp/media/thumb"

/-! Stage errors. A Python ValueError raised by a stage is not in
autoretry_for, so it fails the task at once (permanent); a
TransientProcessingError is autoretried by BaseMediaTask. The persisted
error message is str(exc), i.e. the constructor argument. -/

/-- Classified stage failure carrying str(exc). -/
inductive StageError where
  | permanent (msg : String)
  | transient (msg : String)
deriving Repr, DecidableEq

/-- The str(exc) text persisted by BaseMediaTask.on_failure. -/
def StageError.message : StageError → String
  | .permanent m => m
  | .transient m => m

/-- Extension sets of _file_kind (tasks.py lines 89-95). -/
def image_exts : List String := [".jpg", ".jpeg", ".png", ".webp"]

/-- Video extensions recognised by _file_kind. -/
def video_exts : List String := [".mp4", ".mov", ".mkv", ".webm"]

/-- Embedding of _file_kind: classify by lowercased suffix, raising
ValueError (permanent) on an unknown extension with the source's message. -/
def file_kind (path : String) : Except String String :=
  let ext := lowerString (pathSuffix path)
  if image_exts.contains ext then .ok "image"
  else if video_exts.contains ext then .ok "video"
  else .error ("Unsupported media format: " ++ ext)

/-- A converted or watermarked variant entry {"label": .., "path": ..}
carried in the pipeline context. -/
structure LabeledPath where
  label : String
  path : String
deriving Repr, DecidableEq

/-- An uploaded entry {"label": .., "url": .., "path": ..} produced by
upload_outputs. -/
structure UploadedItem where
  label : String
  url : String
  path : String
deriving Repr, DecidableEq

/-- The pipeline context dict passed from stage to stage: starts as
{"media_task_id": .., "input_path": ..} and accumulates the stage output
keys; absent keys are modelled as none or the empty list. -/
structure Ctx where
  media_task_id : String
  input_path : String
  kind : Option String
  size_bytes : Option Nat
  thumbnail_path : Option String
  converted : List LabeledPath
  watermarked : List LabeledPath
  uploaded : List UploadedItem
  thumbnail_url : Option String
deriving Repr, DecidableEq

/-- The initial context built by run_media_pipeline (tasks.py line 44). -/
def initialCtx (media_task_id input_path : String) : Ctx :=
  { media_task_id := media_task_id, input_path := input_path, kind := none,
    size_bytes := none, thumbnail_path := none, converted := [],
    watermarked := [], uploaded := [], thumbnail_url := none }

/-- Observable filesystem facts about the uploaded source file used by
validate_media: whether input_path exists and its stat().st_size. -/
structure InputFile where
  file_present : Bool
  size_bytes : Nat
deriving Repr, DecidableEq

/-- One execution attempt of validate_media (tasks.py lines 98-114),
up to its store commit: existence check, _file_kind classification, empty
check, then the kind and size_bytes keys are added to the context. -/
def validate_media_attempt (file : InputFile) (ctx : Ctx) : Except StageError Ctx :=
  if !file.file_present then
    .error (.permanent "Uploaded source file does not exist")
  else
    match file_kind ctx.input_path with
    | .error m => .error (.permanent m)
    | .ok kind =>
      if file.size_bytes == 0 then .error (.permanent "Uploaded file is empty")
      else .ok { ctx with kind := some kind, size_bytes := some file.size_bytes }

/-- One execution attempt of generate_thumbnail (tasks.py lines 117-145),
up to its store commit. For an image PIL produces a bounded thumbnail (an
opaque file effect here); for a video the ffmpeg invocation may exit
nonzero, which the source raises as TransientProcessingError. thumbToolOk
gives the exit status of the external tool on attempt r. -/
def generate_thumbnail_attempt (thumbToolOk : Nat → Bool) (r : Nat) (ctx : Ctx) :
    Except StageError Ctx :=
  let thumb := media_thumb_dir ++ "/" ++ pathStem ctx.input_path ++ "_thumb.jpg"
  if ctx.kind == some "image" then
    .ok { ctx with thumbnail_path := some thumb }
  else
    if thumbToolOk r then .ok { ctx with thumbnail_path := some thumb }
    else .error (.transient "Failed to generate video thumbnail")

/-- The fixed resolution table of convert_resolutions (tasks.py line 151). -/
def resolutions : List (String × Nat) := [("1080p", 1920), ("720p", 1280), ("480p", 854)]

/-- Output height of the image branch of convert_resolutions (tasks.py
lines 159-160): ratio = width / float(img.width); height = max(1,
int(img.height * ratio)). Python int() truncates toward zero, so over
positive values this is the floor of the exact ratio, which Nat division
computes; double rounding of the intermediate ratio is not modelled. -/
def convert_height (src_width src_height width : Nat) : Nat :=
  max 1 (width * src_height / src_width)

/-- The per-variant loop of convert_resolutions: an image variant is
produced by PIL (resize never raises here); a video variant runs ffmpeg
and a nonzero exit raises TransientProcessingError for that label, which
aborts the remaining variants of this attempt. -/
def convertLoop (isImage : Bool) (toolOk : String → Bool) (input_path : String) :
    List (String × Nat) → Except StageError (List LabeledPath)
  | [] => .ok []
  | (label, _width) :: rest =>
    let out_path := media_output_dir ++ "/" ++ pathStem input_path ++ "_" ++ label ++ pathSuffix input_path
    if isImage || toolOk label then
      match convertLoop isImage toolOk input_path rest with
      | .ok xs => .ok ({ label := label, path := out_path } :: xs)
      | .error e => .error e
    else .error (.transient ("Failed to convert " ++ label))

/-- One execution attempt of convert_resolutions (tasks.py lines 148-183),
up to its store commit. -/
def convert_resolutions_attempt (convToolOk : Nat → String → Bool) (r : Nat) (ctx : Ctx) :
    Except StageError Ctx :=
  match convertLoop (ctx.kind == some "image") (convToolOk r) ctx.input_path resolutions with
  | .ok converted => .ok { ctx with converted := converted }
  | .error e => .error e

/-- The per-variant loop of apply_watermark (tasks.py lines 191-214):
images are composited by PIL; a video runs ffmpeg drawtext and a nonzero
exit raises TransientProcessingError, aborting the remaining items. -/
def watermarkLoop (isImage : Bool) (toolOk : String → Bool) :
    List LabeledPath → Except StageError (List LabeledPath)
  | [] => .ok []
  | item :: rest =>
    let dst := withName item.path (pathStem item.path ++ "_wm" ++ pathSuffix item.path)
    if isImage || toolOk item.label then
      match watermarkLoop isImage toolOk rest with
      | .ok xs => .ok ({ label := item.label, path := dst } :: xs)
      | .error e => .error e
    else .error (.transient "Failed to watermark video")

/-- One execution attempt of apply_watermark (tasks.py lines 186-219), up
to its store commit. -/
def apply_watermark_attempt (wmToolOk : Nat → String → Bool) (r : Nat) (ctx : Ctx) :
    Except StageError Ctx :=
  match watermarkLoop (ctx.kind == some "image") (wmToolOk r) ctx.converted with
  | .ok watermarked => .ok { ctx with watermarked := watermarked }
  | .error e => .error e

/-! Object storage (storage.py). -/

/-- Outcome of one boto3 upload_file call: success, or one of the caught
exception classes BotoCoreError and ClientError. -/
inductive UploadAttemptResult where
  | success
  | failure
deriving Repr, DecidableEq

/-- The storage collaborator: the s3 settings plus the observable outcome
of each attempted upload, keyed by (local path, object key). -/
structure StorageEnv where
  s3_enabled : Bool
  s3_bucket : String
  s3_public_base_url : String
  attemptOutcome : String → String → UploadAttemptResult

/-- Embedding of upload_file_to_storage (storage.py lines 19-28): with s3
disabled return the local path; otherwise attempt the upload and return
the public URL on success or the local path on a caught storage error. -/
def upload_file_to_storage (env : StorageEnv) (path object_key : String) : String :=
  if !env.s3_enabled then path
  else
    match env.attemptOutcome path object_key with
    | .success => env.s3_public_base_url ++ "/" ++ env.s3_bucket ++ "/" ++ object_key
    | .failure => path

/-- One execution attempt of upload_outputs (tasks.py lines 222-239), up
to its store commit: every watermarked variant and the thumbnail are
pushed under key media_task_id/filename; the stage body raises nothing
itself since upload_file_to_storage always returns a string. -/
def upload_outputs_attempt (senv : StorageEnv) (ctx : Ctx) : Except StageError Ctx :=
  let uploaded := ctx.watermarked.map (fun item =>
    let object_key := ctx.media_task_id ++ "/" ++ baseName item.path
    { label := item.label, url := upload_file_to_storage senv item.path object_key,
      path := item.path })
  let thumb := (ctx.thumbnail_path).getD ""
  let thumb_key := ctx.media_task_id ++ "/" ++ baseName thumb
  .ok { ctx with uploaded := uploaded,
                 thumbnail_url := some (upload_file_to_storage senv thumb thumb_key) }

/-- The outputs dict assembled by finalize_success (tasks.py lines
244-247). -/
def finalize_outputs (ctx : Ctx) : TaskOutputs :=
  { thumbnail := (ctx.thumbnail_url).getD "",
    variants := ctx.uploaded.map (fun x => { label := x.label, url := x.url }) }

/-! Store commits issued by each stage on success, and by
BaseMediaTask.on_failure on final failure. An argument passed as None in
the Python call is indistinguishable from an omitted argument, so it
appears here as none (not provided). -/

/-- Commit of validate_media: status processing, progress 10. -/
def validateFields : UpdateFields :=
  { noFields with status := some "processing", progress := some 10 }

/-- Commit of generate_thumbnail: progress 25 plus the thumbnail path. -/
def thumbnailFields (ctx : Ctx) : UpdateFields :=
  { noFields with progress := some 25, thumbnail_path := ctx.thumbnail_path }

/-- Commit of convert_resolutions: progress 55. -/
def convertFields : UpdateFields :=
  { noFields with progress := some 55 }

/-- Commit of apply_watermark: progress 75. -/
def watermarkFields : UpdateFields :=
  { noFields with progress := some 75 }

/-- Commit of upload_outputs: progress 90. -/
def uploadFields : UpdateFields :=
  { noFields with progress := some 90 }

/-- Commit of finalize_success (tasks.py lines 248-254): status completed,
progress 100, the assembled outputs, and error_message passed as None —
which update_media_row treats as not provided, leaving the stored
error_message untouched. -/
def finalizeFields (ctx : Ctx) : UpdateFields :=
  { noFields with status := some "completed", progress := some 100,
                  outputs := some (finalize_outputs ctx) }

/-- Commit of BaseMediaTask.on_failure (tasks.py lines 31-40): status
failed and error_message str(exc); progress is not written. -/
def onFailureFields (msg : String) : UpdateFields :=
  { noFields with status := some "failed", error_message := some msg }

/-! Retry policy of BaseMediaTask: autoretry_for = (TransientProcessingError,),
max_retries = 5, exponential backoff capped at retry_backoff_max = 60
seconds with jitter. An execution whose request.retries is r and which
raises a transient error is retried while r < max_retries; the execution
at r = max_retries propagates the last transient error to on_failure.
Backoff delays are wall-clock effects and carry no observable state here;
only the attempt count and the final outcome are modelled. -/

/-- Celery max_retries on BaseMediaTask. -/
def max_retries : Nat := 5

/-- Drives attempts of one stage from retry count r with a given number of
retries still allowed: a permanent error stops at once, a transient error
consumes one allowed retry, and when none remain the last transient error
is final. -/
def retryExec {α : Type} (attempt : Nat → Except StageError α) :
    Nat → Nat → Except StageError α
  | r, remaining =>
    match attempt r with
    | .ok c => .ok c
    | .error (.permanent m) => .error (.permanent m)
    | .error (.transient m) =>
      match remaining with
      | 0 => .error (.transient m)
      | remaining' + 1 => retryExec attempt (r + 1) remaining'

/-- Full execution of one stage under the BaseMediaTask policy: first
attempt at retry count 0, at most max_retries retries. -/
def runStageAttempts {α : Type} (attempt : Nat → Except StageError α) :
    Except StageError α :=
  retryExec attempt 0 max_retries

/-! The pipeline chain (tasks.py lines 43-52): a fixed linear sequence of
six stages, each committing its checkpoint to the store on success; a
stage failure (after the retry policy) triggers on_failure and aborts the
remaining stages. -/

/-- One stage of the chain: its name, its attempt body (indexed by retry
count), and the store commit it issues on success from the returned
context. -/
structure PipelineStage where
  name : String
  body : Nat → Ctx → Except StageError Ctx
  commit : Ctx → UpdateFields

/-- The environment a pipeline run observes: the source file facts and the
outcome of every external tool invocation and storage call. -/
structure PipelineEnv where
  file : InputFile
  thumbToolOk : Nat → Bool
  convToolOk : Nat → String → Bool
  wmToolOk : Nat → String → Bool
  storage : StorageEnv

/-- The six stages in their chained order (tasks.py lines 45-52). -/
def pipelineStages (env : PipelineEnv) : List PipelineStage :=
  [ { name := "validate", body := fun _r ctx => validate_media_attempt env.file ctx,
      commit := fun _ => validateFields },
    { name := "thumbnail", body := fun r ctx => generate_thumbnail_attempt env.thumbToolOk r ctx,
      commit := thumbnailFields },
    { name := "convert", body := fun r ctx => convert_resolutions_attempt env.convToolOk r ctx,
      commit := fun _ => convertFields },
    { name := "watermark", body := fun r ctx => apply_watermark_attempt env.wmToolOk r ctx,
      commit := fun _ => watermarkFields },
    { name := "publish", body := fun _r ctx => upload_outputs_attempt env.storage ctx,
      commit := fun _ => uploadFields },
    { name := "finalize", body := fun _r ctx => .ok ctx,
      commit := finalizeFields } ]

/-- Observable state of one pipeline run: the task store, the in-order
list of update_media_row calls applied (commits), the names of the stages
whose bodies were entered, and a logical clock for updated_at. -/
structure RunState where
  store : List MediaTaskRow
  commits : List UpdateFields
  invoked : List String
  time : Nat
deriving Repr

/-- Applies one update_media_row call and records it. -/
def commitUpdate (s : RunState) (media_task_id : String) (f : UpdateFields) : RunState :=
  { store := update_media_row s.store media_task_id f s.time,
    commits := s.commits ++ [f], invoked := s.invoked, time := s.time + 1 }

/-- Runs the remaining stages of the chain; returns the final state and
whether the whole chain completed (finalize included). -/
def runStages : List PipelineStage → RunState → Ctx → RunState × Bool
  | [], s, _ctx => (s, true)
  | stage :: rest, s, ctx =>
    let s1 : RunState := { s with invoked := s.invoked ++ [stage.name] }
    match runStageAttempts (fun r => stage.body r ctx) with
    | .ok ctx2 => runStages rest (commitUpdate s1 ctx.media_task_id (stage.commit ctx2)) ctx2
    | .error e => (commitUpdate s1 ctx.media_task_id (onFailureFields e.message), false)

/-- Embedding of run_media_pipeline (tasks.py lines 43-52) together with
the worker executing the chain to quiescence over the given store. -/
def run_media_pipeline (env : PipelineEnv) (store : List MediaTaskRow)
    (media_task_id input_path : String) : RunState × Bool :=
  runStages (pipelineStages env)
    { store := store, commits := [], invoked := [], time := 1 }
    (initialCtx media_task_id input_path)

/-- The progress checkpoints committed to the store, in order. -/
def progressCommits (commits : List UpdateFields) : List Nat :=
  commits.filterMap (fun f => f.progress)

/-! Admission controller: POST /media/upload (main.py lines 42-81). -/

/-- The quota query of upload_media (main.py lines 48-52): the number of
rows of this user whose status is queued or processing. -/
def activeCount (store : List MediaTaskRow) (user_id : String) : Nat :=
  (store.filter (fun r =>
    r.user_id == user_id && (r.status == "queued" || r.status == "processing"))).length

/-- The response body of a successful upload (schemas.py UploadResponse). -/
structure UploadResponse where
  task_id : String
  celery_id : String
  status : String
deriving Repr, DecidableEq

/-- Result of upload_media: either HTTP 429 with the quota detail, or the
201-style response. -/
inductive SubmitResult where
  | quotaExceeded (status_code : Nat) (detail : String)
  | accepted (resp : UploadResponse)
deriving Repr, DecidableEq

/-- The detail string of the quota rejection with the default settings. -/
def quotaDetail : String :=
  "Task quota exceeded. Max active tasks per user: " ++ toString max_active_tasks_per_user

/-- Embedding of upload_media (main.py lines 42-81): counts the user's
active rows; at or above the quota it raises HTTPException(429) before
any row or file is created; otherwise it persists the upload, inserts one
row with status queued and progress 0, enqueues the pipeline and stores
the returned job handle on the row. fresh_id is the uuid the database
assigns the new row and celery_id the handle the queue returns. -/
def upload_media (store : List MediaTaskRow) (user_id : String)
    (filename : Option String) (fresh_id celery_id : String) (now : Nat) :
    SubmitResult × List MediaTaskRow :=
  if max_active_tasks_per_user ≤ activeCount store user_id then
    (.quotaExceeded 429 quotaDetail, store)
  else
    let safe_name := baseName (filename.getD "upload.bin")
    let source_path := media_input_dir ++ "/" ++ fresh_id ++ "_" ++ safe_name
    let row : MediaTaskRow :=
      { id := fresh_id, user_id := user_id, original_filename := safe_name,
        status := "queued", progress := 0, celery_task_id := some celery_id,
        source_path := source_path, thumbnail_path := none, outputs := none,
        error_message := none, updated_at := now }
    (.accepted { task_id := fresh_id, celery_id := celery_id, status := "queued" },
      store ++ [row])

/-! Live status publisher: the websocket endpoint task_updates
(main.py lines 92-127). -/

/-- One streamed payload (main.py lines 111-118); the celery execution
state is read through AsyncResult when the row carries a job handle. -/
structure StatusSnapshot where
  task_id : String
  status : String
  progress : Nat
  error_message : Option String
  outputs : Option TaskOutputs
  celery_state : Option String
deriving Repr, DecidableEq

/-- A websocket emission: the not-found error payload or a snapshot. -/
inductive WsMessage where
  | notFound
  | snapshot (snap : StatusSnapshot)
deriving Repr, DecidableEq

/-- Composes the snapshot payload from the freshly read row. -/
def snapshotOf (row : MediaTaskRow) (celery_state : Option String) : StatusSnapshot :=
  { task_id := row.id, status := row.status, progress := row.progress,
    error_message := row.error_message, outputs := row.outputs,
    celery_state := celery_state }

/-- True exactly on the two terminal statuses checked at main.py line 122. -/
def terminalStatus (r : MediaTaskRow) : Bool :=
  r.status == "completed" || r.status == "failed"

/-- The message sent for a found row at tick t. -/
def tickSnapshot (celeryState : String → Nat → Option String)
    (row : MediaTaskRow) (t : Nat) : WsMessage :=
  .snapshot (snapshotOf row
    (match row.celery_task_id with
     | some cid => celeryState cid t
     | none => none))

/-- Embedding of the websocket loop task_updates (main.py lines 92-127),
unrolled from tick t for a bounded number of ticks (the fuel bounds how
far the unbounded Python loop is observed; the Bool records whether the
loop exited within the observed window). Per tick: a disconnected
subscriber stops the loop with nothing further sent; an unresolved id
sends the single not-found payload and breaks; otherwise the snapshot is
sent and the loop breaks when the just-read status is terminal, else it
sleeps and ticks again. reads t is the row the fresh session sees at tick
t and connected t whether the subscriber is still connected at tick t. -/
def task_updates (reads : Nat → Option MediaTaskRow) (connected : Nat → Bool)
    (celeryState : String → Nat → Option String) :
    Nat → Nat → List WsMessage × Bool
  | _t, 0 => ([], false)
  | t, fuel + 1 =>
    if !connected t then ([], true)
    else
      match reads t with
      | none => ([.notFound], true)
      | some row =>
        if terminalStatus row then ([tickSnapshot celeryState row t], true)
        else
          let next := task_updates reads connected celeryState (t + 1) fuel
          (tickSnapshot celeryState row t :: next.1, next.2)

/-! Helper lemmas about the store update. -/

/-- Applying update fields never changes the primary key. -/
theorem applyFields_id (r : MediaTaskRow) (f : UpdateFields) (now : Nat) :
    (applyFields r f now).id = r.id := by
  unfold applyFields
  split <;> rfl

/-- Mapping the row rewrite over the store moves through findRow. -/
theorem findRow_map_update (f : UpdateFields) (now : Nat) (media_task_id : String) :
    ∀ (store : List MediaTaskRow) (r : MediaTaskRow),
      findRow store media_task_id = some r →
      findRow (store.map (fun x => if x.id == media_task_id then applyFields x f now else x))
          media_task_id = some (applyFields r f now) := by
  intro store
  induction store with
  | nil => intro r h; simp [findRow] at h
  | cons a as ih =>
    intro r h
    cases hpa : (a.id == media_task_id) with
    | true =>
      have ha : a = r := by
        unfold findRow at h
        rw [hpa] at h
        simpa using h
      subst ha
      simp only [List.map, findRow, hpa, if_true]
      rw [if_pos (by rw [applyFields_id]; exact hpa)]
    | false =>
      have htail : findRow as media_task_id = some r := by
        unfold findRow at h
        rw [hpa] at h
        simpa using h
      have hhead : (if (a.id == media_task_id) = true then applyFields a f now else a) = a := by
        simp [hpa]
      simp only [List.map, hhead, findRow]
      rw [if_neg (by simp [hpa])]
      exact ih r htail

/-- A present row is updated in place by update_media_row. -/
theorem findRow_update_some {store : List MediaTaskRow} {media_task_id : String}
    {r : MediaTaskRow} (h : findRow store media_task_id = some r)
    (f : UpdateFields) (now : Nat) :
    findRow (update_media_row store media_task_id f now) media_task_id
      = some (applyFields r f now) := by
  unfold update_media_row
  rw [h]
  exact findRow_map_update f now media_task_id store r h

/-- Claim C10: a store update whose task id matches no existing row
returns silently and leaves the store unchanged. -/
theorem C10_update_unknown_id_noop (store : List MediaTaskRow)
    (media_task_id : String) (f : UpdateFields) (now : Nat)
    (h : findRow store media_task_id = none) :
    update_media_row store media_task_id f now = store := by
  unfold update_media_row
  rw [h]

/-- Witness for C10 at a concrete store and id. -/
theorem C10_update_unknown_id_noop_witness :
    findRow [completedRow] "zz" = none ∧
      update_media_row [completedRow] "zz" (onFailureFields "late write") 3 = [completedRow] :=
  ⟨by decide, C10_update_unknown_id_noop [completedRow] "zz" (onFailureFields "late write") 3 (by decide)⟩

/-- A stage whose first execution raises a permanent (non autoretried)
error fails at once: no retry is attempted. -/
theorem runStageAttempts_permanent {α : Type} (attempt : Nat → Except StageError α)
    (msg : String) (h : attempt 0 = .error (.permanent msg)) :
    runStageAttempts attempt = .error (.permanent msg) := by
  unfold runStageAttempts retryExec
  rw [h]

/-- A storage environment with object storage disabled, as used by local
deployments; every publish call then yields the local path. -/
def localStorage : StorageEnv :=
  { s3_enabled := false, s3_bucket := "media",
    s3_public_base_url := "http://localhost:9000",
    attemptOutcome := fun _ _ => .success }

/-- A pipeline environment whose external tools always succeed. -/
def plainEnv (present : Bool) (size : Nat) : PipelineEnv :=
  { file := { file_present := present, size_bytes := size },
    thumbToolOk := fun _ => true,
    convToolOk := fun _ _ => true,
    wmToolOk := fun _ _ => true,
    storage := localStorage }

/-- A freshly admitted row used in concrete runs. -/
def queuedRow (id name : String) : MediaTaskRow :=
  { id := id, user_id := "u", original_filename := name,
    status := "queued", progress := 0, celery_task_id := some ("c_" ++ id),
    source_path := media_input_dir ++ "/" ++ id ++ "_" ++ name,
    thumbnail_path := none, outputs := none, error_message := none,
    updated_at := 0 }

/-- Claim C1 (code bug evidence): update_media_row applies the requested
fields to a row whose stored status is already terminal; the completed
row's status and progress are overwritten by a late stage-style write, so
terminal states are not absorbing in the store as implemented. -/
theorem C1_terminal_update_not_noop :
    completedRow.status = "completed" ∧ completedRow.progress = 100 ∧
      (findRow (update_media_row [completedRow] "t1"
          { noFields with status := some "processing", progress := some 10 } 8) "t1").map
        (fun r => (r.status, r.progress)) = some ("processing", 10) := by
  refine ⟨rfl, rfl, ?_⟩
  decide

/-- Claim C2: a validation failure (unknown extension, or zero size) is
permanent: the chain aborts with the validate stage the only stage ever
entered, no retry occurs (ValueError is not autoretried, see
runStageAttempts_permanent), the only store write is the on_failure
commit, and the row afterwards carries status failed and the raised
reason as error_message while its progress is untouched. The first
conjunct treats the unknown extension (reason "Unsupported media format:
{ext}"), the second the empty file (reason "Uploaded file is empty"). -/
theorem C2_validation_permanent_failure :
    (∀ (env : PipelineEnv) (store : List MediaTaskRow) (id p msg : String) (r : MediaTaskRow),
      env.file.file_present = true →
      file_kind p = .error msg →
      findRow store id = some r →
      (run_media_pipeline env store id p).2 = false ∧
      (run_media_pipeline env store id p).1.invoked = ["validate"] ∧
      (run_media_pipeline env store id p).1.commits = [onFailureFields msg] ∧
      findRow (run_media_pipeline env store id p).1.store id =
        some { r with status := "failed", error_message := some msg, updated_at := 1 })
    ∧
    (∀ (env : PipelineEnv) (store : List MediaTaskRow) (id p kind : String) (r : MediaTaskRow),
      env.file.file_present = true →
      file_kind p = .ok kind →
      env.file.size_bytes = 0 →
      findRow store id = some r →
      (run_media_pipeline env store id p).2 = false ∧
      (run_media_pipeline env store id p).1.invoked = ["validate"] ∧
      (run_media_pipeline env store id p).1.commits = [onFailureFields "Uploaded file is empty"] ∧
      findRow (run_media_pipeline env store id p).1.store id =
        some { r with status := "failed",
                      error_message := some "Uploaded file is empty", updated_at := 1 }) := by
  constructor
  · intro env store id p msg r hpresent hkind hrow
    have hval : validate_media_attempt env.file (initialCtx id p) = .error (.permanent msg) := by
      unfold validate_media_attempt initialCtx
      simp [hpresent, hkind]
    have hstage :
        runStageAttempts (fun _r => validate_media_attempt env.file (initialCtx id p)) =
          .error (.permanent msg) :=
      runStageAttempts_permanent _ msg hval
    have hmain : run_media_pipeline env store id p =
        ({ store := update_media_row store id (onFailureFields msg) 1,
           commits := [onFailureFields msg], invoked := ["validate"], time := 2 }, false) := by
      unfold run_media_pipeline pipelineStages runStages
      simp only [hstage]
      rfl
    rw [hmain]
    refine ⟨rfl, rfl, rfl, ?_⟩
    have hfind := findRow_update_some hrow (onFailureFields msg) 1
    rw [hfind]
    rfl
  · intro env store id p kind r hpresent hkind hsize hrow
    have hval : validate_media_attempt env.file (initialCtx id p) =
        .error (.permanent "Uploaded file is empty") := by
      unfold validate_media_attempt initialCtx
      simp [hpresent, hkind, hsize]
    have hstage :
        runStageAttempts (fun _r => validate_media_attempt env.file (initialCtx id p)) =
          .error (.permanent "Uploaded file is empty") :=
      runStageAttempts_permanent _ _ hval
    have hmain : run_media_pipeline env store id p =
        ({ store := update_media_row store id (onFailureFields "Uploaded file is empty") 1,
           commits := [onFailureFields "Uploaded file is empty"],
           invoked := ["validate"], time := 2 }, false) := by
      unfold run_media_pipeline pipelineStages runStages
      simp only [hstage]
      rfl
    rw [hmain]
    refine ⟨rfl, rfl, rfl, ?_⟩
    have hfind := findRow_update_some hrow (onFailureFields "Uploaded file is empty") 1
    rw [hfind]
    rfl

/-- Three queued rows of user u: the quota-full store. -/
def threeActive : List MediaTaskRow :=
  [queuedRow "a1" "x.png", queuedRow "a2" "y.png", queuedRow "a3" "z.png"]

/-- Claim C4: a user at or above max_active_tasks_per_user active
(queued or processing) rows has the submission rejected with the 429
quota error and the store unchanged (no row created, no other side
effect); below the quota exactly one new row is appended with status
queued and progress 0, carrying the stored job handle, and the response
returns the task identifier together with the job handle. -/
theorem C4_quota_admission :
    (∀ (store : List MediaTaskRow) (user_id : String) (filename : Option String)
        (fresh_id celery_id : String) (now : Nat),
      max_active_tasks_per_user ≤ activeCount store user_id →
      upload_media store user_id filename fresh_id celery_id now =
        (.quotaExceeded 429 quotaDetail, store))
    ∧ (∀ (store : List MediaTaskRow) (user_id : String) (filename : Option String)
        (fresh_id celery_id : String) (now : Nat),
      activeCount store user_id < max_active_tasks_per_user →
      upload_media store user_id filename fresh_id celery_id now =
        (.accepted { task_id := fresh_id, celery_id := celery_id, status := "queued" },
          store ++ [{ id := fresh_id, user_id := user_id,
                      original_filename := baseName (filename.getD "upload.bin"),
                      status := "queued", progress := 0,
                      celery_task_id := some celery_id,
                      source_path := media_input_dir ++ "/" ++ fresh_id ++ "_" ++
                        baseName (filename.getD "upload.bin"),
                      thumbnail_path := none, outputs := none,
                      error_message := none, updated_at := now }])) := by
  constructor
  · intro store user_id filename fresh_id celery_id now h
    unfold upload_media
    rw [if_pos h]
  · intro store user_id filename fresh_id celery_id now h
    unfold upload_media
    rw [if_neg (by omega)]

/-- Witness for C4: a fourth submission against three active rows is
rejected without a new row; a submission against one active row appends
exactly the queued row. -/
theorem C4_quota_admission_witness :
    upload_media threeActive "u" (some "c.png") "t10" "cy" 4 =
      (.quotaExceeded 429 quotaDetail, threeActive) ∧
    upload_media [queuedRow "a1" "x.png"] "u" (some "c.png") "t11" "cz" 5 =
      (.accepted { task_id := "t11", celery_id := "cz", status := "queued" },
        [queuedRow "a1" "x.png"] ++
          [{ id := "t11", user_id := "u",
             original_filename := baseName ((some "c.png").getD "upload.bin"),
             status := "queued", progress := 0, celery_task_id := some "cz",
             source_path := media_input_dir ++ "/" ++ "t11" ++ "_" ++
               baseName ((some "c.png").getD "upload.bin"),
             thumbnail_path := none, outputs := none,
             error_message := none, updated_at := 5 }]) :=
  ⟨C4_quota_admission.1 threeActive "u" (some "c.png") "t10" "cy" 4 (by decide),
    C4_quota_admission.2 [queuedRow "a1" "x.png"] "u" (some "c.png") "t11" "cz" 5 (by decide)⟩

/-- A storage environment whose every upload attempt raises one of the
caught exception classes: the storage collaborator is unavailable. -/
def downStorage : StorageEnv :=
  { s3_enabled := true, s3_bucket := "media",
    s3_public_base_url := "http://localhost:9000",
    attemptOutcome := fun _ _ => .failure }

/-- An image pipeline environment over unavailable storage. -/
def downEnv : PipelineEnv :=
  { file := { file_present := true, size_bytes := 5 },
    thumbToolOk := fun _ => true,
    convToolOk := fun _ _ => true,
    wmToolOk := fun _ _ => true,
    storage := downStorage }

/-- When every storage attempt fails, the storage call degrades to the
item's local path. -/
theorem upload_file_fallback (senv : StorageEnv)
    (hfail : ∀ p k, senv.attemptOutcome p k = .failure) (p k : String) :
    upload_file_to_storage senv p k = p := by
  unfold upload_file_to_storage
  by_cases hs : senv.s3_enabled
  · simp [hs, hfail]
  · simp [hs]

/-- Claim C5: every storage push returns either the public URL or the
item's original local path; the publish stage body never raises, under an
unavailable storage every uploaded variant url and the thumbnail url fall
back to the local paths, and a full pipeline run over unavailable storage
still completes with status completed and progress 100. -/
theorem C5_publish_storage_fallback :
    (∀ (senv : StorageEnv) (path object_key : String),
      upload_file_to_storage senv path object_key =
          senv.s3_public_base_url ++ "/" ++ senv.s3_bucket ++ "/" ++ object_key ∨
        upload_file_to_storage senv path object_key = path)
    ∧ (∀ (senv : StorageEnv) (ctx : Ctx), ∃ c, upload_outputs_attempt senv ctx = .ok c)
    ∧ (∀ (senv : StorageEnv) (ctx : Ctx),
        (∀ p k, senv.attemptOutcome p k = .failure) →
        upload_outputs_attempt senv ctx = .ok { ctx with
          uploaded := ctx.watermarked.map (fun item =>
            { label := item.label, url := item.path, path := item.path }),
          thumbnail_url := some ((ctx.thumbnail_path).getD "") })
    ∧ ((run_media_pipeline downEnv [queuedRow "w2" "a.jpg"] "w2"
          "/tmp/media/input/w2_a.jpg").2 = true ∧
        (findRow (run_media_pipeline downEnv [queuedRow "w2" "a.jpg"] "w2"
          "/tmp/media/input/w2_a.jpg").1.store "w2").map
            (fun r => (r.status, r.progress)) = some ("completed", 100)) := by
  refine ⟨?_, ?_, ?_, by decide, by decide⟩
  · intro senv path object_key
    unfold upload_file_to_storage
    by_cases hs : senv.s3_enabled
    · cases ho : senv.attemptOutcome path object_key
      · left
        simp [hs, ho]
      · right
        simp [hs, ho]
    · right
      simp [hs]
  · intro senv ctx
    exact ⟨_, rfl⟩
  · intro senv ctx hfail
    unfold upload_outputs_attempt
    simp [upload_file_fallback senv hfail]

/-- Witness for C5 (for the conjunct carrying a hypothesis): the fallback
of the publish stage at a concrete context over unavailable storage. -/
theorem C5_publish_storage_fallback_witness :
    upload_outputs_attempt downStorage
      { media_task_id := "t6", input_path := "/tmp/media/input/t6_a.jpg",
        kind := some "image", size_bytes := some 5,
        thumbnail_path := some "/tmp/media/thumb/t6_a_thumb.jpg",
        converted := [], thumbnail_url := none, uploaded := [],
        watermarked := [{ label := "1080p", path := "/tmp/media/output/t6_a_1080p_wm.jpg" }] } =
      .ok { media_task_id := "t6", input_path := "/tmp/media/input/t6_a.jpg",
            kind := some "image", size_bytes := some 5,
            thumbnail_path := some "/tmp/media/thumb/t6_a_thumb.jpg",
            converted := [],
            thumbnail_url := some "/tmp/media/thumb/t6_a_thumb.jpg",
            uploaded := [{ label := "1080p", url := "/tmp/media/output/t6_a_1080p_wm.jpg",
                           path := "/tmp/media/output/t6_a_1080p_wm.jpg" }],
            watermarked := [{ label := "1080p", path := "/tmp/media/output/t6_a_1080p_wm.jpg" }] } :=
  C5_publish_storage_fallback.2.2.1 downStorage
    { media_task_id := "t6", input_path := "/tmp/media/input/t6_a.jpg",
      kind := some "image", size_bytes := some 5,
      thumbnail_path := some "/tmp/media/thumb/t6_a_thumb.jpg",
      converted := [], thumbnail_url := none, uploaded := [],
      watermarked := [{ label := "1080p", path := "/tmp/media/output/t6_a_1080p_wm.jpg" }] }
    (fun _ _ => rfl)

/-- A stage body that raises TransientProcessingError on each of its
first n executions (the execution at retry count r raising message
msgf r) and succeeds from execution n on. -/
def flakyAttempt {α : Type} (n : Nat) (msgf : Nat → String) (a : α) (r : Nat) :
    Except StageError α :=
  if r < n then .error (.transient (msgf r)) else .ok a

/-- With enough retries remaining, a flaky stage eventually succeeds. -/
theorem retryExec_flaky_ok {α : Type} (n : Nat) (msgf : Nat → String) (a : α) :
    ∀ (remaining r : Nat), n ≤ r + remaining →
      retryExec (flakyAttempt n msgf a) r remaining = .ok a := by
  intro remaining
  induction remaining with
  | zero =>
    intro r h
    unfold retryExec flakyAttempt
    rw [if_neg (by omega)]
  | succ m ih =>
    intro r h
    unfold retryExec flakyAttempt
    by_cases hr : r < n
    · rw [if_pos hr]
      exact ih (r + 1) (by omega)
    · rw [if_neg hr]

/-- With too few retries remaining, a flaky stage fails with the message
of the last executed attempt. -/
theorem retryExec_flaky_exhausted {α : Type} (n : Nat) (msgf : Nat → String) (a : α) :
    ∀ (remaining r : Nat), r + remaining < n →
      retryExec (flakyAttempt n msgf a) r remaining =
        .error (.transient (msgf (r + remaining))) := by
  intro remaining
  induction remaining with
  | zero =>
    intro r h
    unfold retryExec flakyAttempt
    rw [if_pos (by omega)]
    rfl
  | succ m ih =>
    intro r h
    unfold retryExec flakyAttempt
    rw [if_pos (by omega)]
    have harith : r + (m + 1) = (r + 1) + m := by omega
    rw [harith]
    exact ih (r + 1) (by omega)

/-- A video pipeline environment whose thumbnail ffmpeg call exits
nonzero on each of its first k invocations and succeeds afterwards; all
other tools succeed and storage is local. -/
def flakyVideoEnv (k : Nat) : PipelineEnv :=
  { file := { file_present := true, size_bytes := 10 },
    thumbToolOk := fun r => decide (k ≤ r),
    convToolOk := fun _ _ => true,
    wmToolOk := fun _ _ => true,
    storage := localStorage }

/-- Claim C3: a stage raising TransientProcessingError is retried (same
stage, increasing retry count) up to max_retries = 5 retry attempts; a
stage that raises on its first n executions still succeeds whenever
n is at most 5, and with 6 raises the retries are exhausted and the stage
fails carrying the message of the last raise (attempt index 5). On the
whole pipeline: a video thumbnail tool failing exactly 4 times still
yields a completed task at progress 100, while failing 6 times yields
status failed with the last transient reason as error_message. -/
theorem C3_transient_retry_cap :
    (∀ (n : Nat) (msgf : Nat → String) (c : Ctx), n ≤ max_retries →
      runStageAttempts (flakyAttempt n msgf c) = .ok c)
    ∧ (∀ (n : Nat) (msgf : Nat → String) (c : Ctx), max_retries < n →
      runStageAttempts (flakyAttempt n msgf c) = .error (.transient (msgf max_retries)))
    ∧ ((run_media_pipeline (flakyVideoEnv 4) [queuedRow "v1" "b.mp4"] "v1"
          "/tmp/media/input/v1_b.mp4").2 = true ∧
        (findRow (run_media_pipeline (flakyVideoEnv 4) [queuedRow "v1" "b.mp4"] "v1"
          "/tmp/media/input/v1_b.mp4").1.store "v1").map (fun r => (r.status, r.progress)) =
          some ("completed", 100))
    ∧ ((run_media_pipeline (flakyVideoEnv 6) [queuedRow "v1" "b.mp4"] "v1"
          "/tmp/media/input/v1_b.mp4").2 = false ∧
        (findRow (run_media_pipeline (flakyVideoEnv 6) [queuedRow "v1" "b.mp4"] "v1"
          "/tmp/media/input/v1_b.mp4").1.store "v1").map
            (fun r => (r.status, r.error_message)) =
          some ("failed", some "Failed to generate video thumbnail")) := by
  refine ⟨?_, ?_, ?_, ?_⟩
  · intro n msgf c h
    unfold runStageAttempts
    exact retryExec_flaky_ok n msgf c max_retries 0 (by unfold max_retries at *; omega)
  · intro n msgf c h
    unfold runStageAttempts
    have := retryExec_flaky_exhausted n msgf c max_retries 0 (by unfold max_retries at *; omega)
    simpa using this
  · exact ⟨by decide, by decide⟩
  · exact ⟨by decide, by decide⟩

/-- Witness for C3 at concrete retry counts 4 and 6. -/
theorem C3_transient_retry_cap_witness :
    runStageAttempts (flakyAttempt 4 (fun r => toString r) (initialCtx "x" "p")) =
      .ok (initialCtx "x" "p") ∧
    runStageAttempts (flakyAttempt 6 (fun r => toString r) (initialCtx "x" "p")) =
      .error (.transient (toString 5)) :=
  ⟨C3_transient_retry_cap.1 4 (fun r => toString r) (initialCtx "x" "p") (by decide),
    C3_transient_retry_cap.2.1 6 (fun r => toString r) (initialCtx "x" "p") (by decide)⟩

/-- Claim C6 counterexample: the image branch computes int() of the
scaled height, which truncates, not round-to-nearest. For a 3 wide, 1
high source at target width 854 the exact scaled height is 854/3 =
284.66…, the code produces 284, while the claimed formula
max(1, round(width * src_height / src_width)) gives 285. -/
theorem C6_round_counterexample :
    convert_height 3 1 854 = 284 ∧
    max 1 ((round ((854 * 1 : ℚ) / 3)).toNat) = 285 ∧
    convert_height 3 1 854 ≠ max 1 ((round ((854 * 1 : ℚ) / 3)).toNat) := by
  have hround : round ((854 * 1 : ℚ) / 3) = 285 := by norm_num [round_eq]
  refine ⟨by decide, ?_, ?_⟩
  · rw [hround]
    decide
  · rw [hround]
    decide

/-- Claim C6 as amended: for src_width > 0 the produced variant height is
max(1, floor(width * src_height / src_width)) — the floor (truncation) of
the exact aspect-preserving height rather than round-to-nearest; the
spec's concrete instances are unaffected: a 1000 wide, 500 high source
yields height 960 at width 1920 and height 427 at width 854. -/
theorem C6_height_floor_formula (src_width src_height width : Nat)
    (hpos : 0 < src_width) :
    convert_height src_width src_height width =
      max 1 (Int.toNat ⌊((width * src_height : ℕ) : ℚ) / (src_width : ℚ)⌋) ∧
    convert_height 1000 500 1920 = 960 ∧ convert_height 1000 500 854 = 427 := by
  clear hpos
  refine ⟨?_, by decide, by decide⟩
  unfold convert_height
  congr 1
  rw [Int.floor_toNat, Nat.floor_div_eq_div]

/-- Witness for C6 as amended, at the spec's own 1000 by 500 source. -/
theorem C6_height_floor_formula_witness :
    convert_height 1000 500 1920 =
      max 1 (Int.toNat ⌊((1920 * 500 : ℕ) : ℚ) / ((1000 : ℕ) : ℚ)⌋) ∧
    convert_height 1000 500 1920 = 960 ∧ convert_height 1000 500 854 = 427 :=
  C6_height_floor_formula 1000 500 1920 (by decide)

/-- A context at the finalize stage with one uploaded variant. -/
def doneCtx : Ctx :=
  { media_task_id := "t7", input_path := "/tmp/media/input/t7_a.jpg",
    kind := some "image", size_bytes := some 5,
    thumbnail_path := some "/tmp/media/thumb/t7_a_thumb.jpg",
    converted := [{ label := "1080p", path := "/tmp/media/output/t7_a_1080p.jpg" }],
    watermarked := [{ label := "1080p", path := "/tmp/media/output/t7_a_1080p_wm.jpg" }],
    uploaded := [{ label := "1080p", url := "u1",
                   path := "/tmp/media/output/t7_a_1080p_wm.jpg" }],
    thumbnail_url := some "tu" }

/-- A row still carrying an error_message from an earlier failure (as a
duplicate delivery under acks_late can produce) when finalize commits. -/
def staleRow : MediaTaskRow :=
  { id := "t7", user_id := "u", original_filename := "a.jpg",
    status := "processing", progress := 90, celery_task_id := some "c7",
    source_path := "/tmp/media/input/t7_a.jpg",
    thumbnail_path := some "/tmp/media/thumb/t7_a_thumb.jpg",
    outputs := none, error_message := some "Failed to watermark video",
    updated_at := 4 }

/-- Claim C7 counterexample: finalize's store commit passes
error_message=None, and update_media_row skips fields passed as None, so
a stored error_message survives the successful finalize commit: the row
ends completed at progress 100 with its old error_message intact instead
of cleared. -/
theorem C7_error_message_not_cleared :
    (findRow (update_media_row [staleRow] "t7" (finalizeFields doneCtx) 9) "t7").map
        (fun r => (r.status, r.progress, r.error_message)) =
      some ("completed", 100, some "Failed to watermark video") := by
  decide

/-- Claim C7 as amended: after a successful finalize commit the stored
row has status completed, progress 100 and outputs assembled from
finalize's result, while error_message is left untouched (the None
argument means not-provided under update_media_row's convention); it is
therefore null exactly when no failure had previously been recorded on
the row, which holds on every run that reaches finalize without a
concurrent duplicate-delivery failure. -/
theorem C7_finalize_commit (store : List MediaTaskRow) (id : String)
    (r : MediaTaskRow) (ctx : Ctx) (now : Nat)
    (h : findRow store id = some r) :
    findRow (update_media_row store id (finalizeFields ctx) now) id =
      some { r with status := "completed", progress := 100,
                    outputs := some (finalize_outputs ctx), updated_at := now } ∧
    (applyFields r (finalizeFields ctx) now).error_message = r.error_message := by
  refine ⟨?_, rfl⟩
  rw [findRow_update_some h]
  rfl

/-- Witness for C7 as amended at a concrete clean row. -/
theorem C7_finalize_commit_witness :
    findRow (update_media_row [queuedRow "t5" "a.jpg"] "t5" (finalizeFields doneCtx) 6) "t5" =
      some { queuedRow "t5" "a.jpg" with
             status := "completed", progress := 100,
             outputs := some (finalize_outputs doneCtx), updated_at := 6 } ∧
    (applyFields (queuedRow "t5" "a.jpg") (finalizeFields doneCtx) 6).error_message =
      (queuedRow "t5" "a.jpg").error_message :=
  C7_finalize_commit [queuedRow "t5" "a.jpg"] "t5" (queuedRow "t5" "a.jpg") doneCtx 6 (by decide)

/-- Witness for C2: a concrete .xyz upload and a concrete empty .jpg
upload, each against a store holding the admitted row. -/
theorem C2_validation_permanent_failure_witness :
    ((run_media_pipeline (plainEnv true 5) [queuedRow "t9" "a.xyz"] "t9"
        "/tmp/media/input/t9_a.xyz").2 = false ∧
      (run_media_pipeline (plainEnv true 5) [queuedRow "t9" "a.xyz"] "t9"
        "/tmp/media/input/t9_a.xyz").1.invoked = ["validate"] ∧
      (run_media_pipeline (plainEnv true 5) [queuedRow "t9" "a.xyz"] "t9"
        "/tmp/media/input/t9_a.xyz").1.commits =
          [onFailureFields "Unsupported media format: .xyz"] ∧
      findRow (run_media_pipeline (plainEnv true 5) [queuedRow "t9" "a.xyz"] "t9"
        "/tmp/media/input/t9_a.xyz").1.store "t9" =
        some ({ (queuedRow "t9" "a.xyz") with
                status := "failed",
                error_message := some "Unsupported media format: .xyz",
                updated_at := 1 } : MediaTaskRow)) ∧
    ((run_media_pipeline (plainEnv true 0) [queuedRow "t8" "a.jpg"] "t8"
        "/tmp/media/input/t8_a.jpg").2 = false ∧
      (run_media_pipeline (plainEnv true 0) [queuedRow "t8" "a.jpg"] "t8"
        "/tmp/media/input/t8_a.jpg").1.invoked = ["validate"] ∧
      (run_media_pipeline (plainEnv true 0) [queuedRow "t8" "a.jpg"] "t8"
        "/tmp/media/input/t8_a.jpg").1.commits = [onFailureFields "Uploaded file is empty"] ∧
      findRow (run_media_pipeline (plainEnv true 0) [queuedRow "t8" "a.jpg"] "t8"
        "/tmp/media/input/t8_a.jpg").1.store "t8" =
        some ({ (queuedRow "t8" "a.jpg") with
                status := "failed",
                error_message := some "Uploaded file is empty",
                updated_at := 1 } : MediaTaskRow)) :=
  ⟨C2_validation_permanent_failure.1 (plainEnv true 5) [queuedRow "t9" "a.xyz"] "t9"
      "/tmp/media/input/t9_a.xyz" "Unsupported media format: .xyz" (queuedRow "t9" "a.xyz")
      rfl rfl (by decide),
    C2_validation_permanent_failure.2 (plainEnv true 0) [queuedRow "t8" "a.jpg"] "t8"
      "/tmp/media/input/t8_a.jpg" "image" (queuedRow "t8" "a.jpg")
      rfl rfl rfl (by decide)⟩

/-- Any successful outcome of the retry loop is a successful outcome of
some single attempt. -/
theorem retryExec_ok_imp {α : Type} (attempt : Nat → Except StageError α)
    (P : α → Prop) (hP : ∀ i a, attempt i = .ok a → P a) :
    ∀ (remaining r : Nat) (a : α), retryExec attempt r remaining = .ok a → P a := by
  intro remaining
  induction remaining with
  | zero =>
    intro r a h
    unfold retryExec at h
    cases hi : attempt r with
    | ok b =>
      rw [hi] at h
      injection h with hba
      subst hba
      exact hP r b hi
    | error e =>
      rw [hi] at h
      cases e <;> simp at h
  | succ m ih =>
    intro r a h
    unfold retryExec at h
    cases hi : attempt r with
    | ok b =>
      rw [hi] at h
      injection h with hba
      subst hba
      exact hP r b hi
    | error e =>
      rw [hi] at h
      cases e with
      | permanent msg => simp at h
      | transient msg => exact ih (r + 1) a h

/-- The validate stage only adds the kind and size keys: the context's
task id is preserved. -/
theorem validate_ok_id (file : InputFile) (ctx c : Ctx)
    (h : validate_media_attempt file ctx = .ok c) :
    c.media_task_id = ctx.media_task_id := by
  unfold validate_media_attempt at h
  split at h
  · simp at h
  · split at h
    · simp at h
    · split at h
      · simp at h
      · injection h with hc
        subst hc
        rfl

/-- The thumbnail stage only adds the thumbnail path key. -/
theorem thumbnail_ok_id (toolOk : Nat → Bool) (r : Nat) (ctx c : Ctx)
    (h : generate_thumbnail_attempt toolOk r ctx = .ok c) :
    c.media_task_id = ctx.media_task_id := by
  unfold generate_thumbnail_attempt at h
  split at h
  · injection h with hc
    subst hc
    rfl
  · split at h
    · injection h with hc
      subst hc
      rfl
    · simp at h

/-- The convert stage only adds the converted list key. -/
theorem convert_ok_id (toolOk : Nat → String → Bool) (r : Nat) (ctx c : Ctx)
    (h : convert_resolutions_attempt toolOk r ctx = .ok c) :
    c.media_task_id = ctx.media_task_id := by
  unfold convert_resolutions_attempt at h
  split at h
  · injection h with hc
    subst hc
    rfl
  · simp at h

/-- The watermark stage only adds the watermarked list key. -/
theorem watermark_ok_id (toolOk : Nat → String → Bool) (r : Nat) (ctx c : Ctx)
    (h : apply_watermark_attempt toolOk r ctx = .ok c) :
    c.media_task_id = ctx.media_task_id := by
  unfold apply_watermark_attempt at h
  split at h
  · injection h with hc
    subst hc
    rfl
  · simp at h

/-- The publish stage only adds the uploaded and thumbnail url keys. -/
theorem upload_ok_id (senv : StorageEnv) (ctx c : Ctx)
    (h : upload_outputs_attempt senv ctx = .ok c) :
    c.media_task_id = ctx.media_task_id := by
  unfold upload_outputs_attempt at h
  injection h with hc
  subst hc
  rfl

/-- Claim C8: a pipeline run that completes commits exactly the progress
checkpoints 10 (validate), 25 (thumbnail), 55 (convert), 75 (watermark),
90 (publish), 100 (finalize) in that order — a strictly increasing
sequence ending at exactly 100 — and the row afterwards reads status
completed at progress 100. -/
theorem C8_progress_checkpoints (env : PipelineEnv) (store : List MediaTaskRow)
    (id p : String)
    (hdone : (run_media_pipeline env store id p).2 = true) :
    progressCommits (run_media_pipeline env store id p).1.commits =
        [10, 25, 55, 75, 90, 100] ∧
    List.Chain' (· < ·)
      (progressCommits (run_media_pipeline env store id p).1.commits) ∧
    (progressCommits (run_media_pipeline env store id p).1.commits).getLast? = some 100 ∧
    (∀ r, findRow store id = some r →
      (findRow (run_media_pipeline env store id p).1.store id).map
        (fun row => (row.status, row.progress)) = some ("completed", 100)) := by
  unfold run_media_pipeline pipelineStages at hdone ⊢
  simp only [runStages] at hdone ⊢
  cases hv1 : runStageAttempts (fun r => validate_media_attempt env.file (initialCtx id p)) with
  | error e =>
    rw [hv1] at hdone
    simp at hdone
  | ok ctx1 =>
    rw [hv1] at hdone
    dsimp only at hdone ⊢
    cases hv2 : runStageAttempts (fun r => generate_thumbnail_attempt env.thumbToolOk r ctx1) with
    | error e =>
      rw [hv2] at hdone
      simp at hdone
    | ok ctx2 =>
      rw [hv2] at hdone
      dsimp only at hdone ⊢
      cases hv3 : runStageAttempts (fun r => convert_resolutions_attempt env.convToolOk r ctx2) with
      | error e =>
        rw [hv3] at hdone
        simp at hdone
      | ok ctx3 =>
        rw [hv3] at hdone
        dsimp only at hdone ⊢
        cases hv4 : runStageAttempts (fun r => apply_watermark_attempt env.wmToolOk r ctx3) with
        | error e =>
          rw [hv4] at hdone
          simp at hdone
        | ok ctx4 =>
          rw [hv4] at hdone
          dsimp only at hdone ⊢
          cases hv5 : runStageAttempts (fun r => upload_outputs_attempt env.storage ctx4) with
          | error e =>
            rw [hv5] at hdone
            simp at hdone
          | ok ctx5 =>
            rw [hv5] at hdone
            dsimp only at hdone ⊢
            cases hv6 : runStageAttempts (fun r => (Except.ok ctx5 : Except StageError Ctx)) with
            | error e =>
              rw [hv6] at hdone
              simp at hdone
            | ok ctx6 =>
              rw [hv6] at hdone
              dsimp only at hdone ⊢
              have hI1 : ctx1.media_task_id = id :=
                retryExec_ok_imp _ (fun a => a.media_task_id = id)
                  (fun i a ha => validate_ok_id env.file (initialCtx id p) a ha)
                  max_retries 0 ctx1 hv1
              have hI2 : ctx2.media_task_id = id := by
                have h2 := retryExec_ok_imp _
                    (fun a => a.media_task_id = ctx1.media_task_id)
                    (fun i a ha => thumbnail_ok_id env.thumbToolOk i ctx1 a ha)
                    max_retries 0 ctx2 hv2
                rw [h2, hI1]
              have hI3 : ctx3.media_task_id = id := by
                have h3 := retryExec_ok_imp _
                    (fun a => a.media_task_id = ctx2.media_task_id)
                    (fun i a ha => convert_ok_id env.convToolOk i ctx2 a ha)
                    max_retries 0 ctx3 hv3
                rw [h3, hI2]
              have hI4 : ctx4.media_task_id = id := by
                have h4 := retryExec_ok_imp _
                    (fun a => a.media_task_id = ctx3.media_task_id)
                    (fun i a ha => watermark_ok_id env.wmToolOk i ctx3 a ha)
                    max_retries 0 ctx4 hv4
                rw [h4, hI3]
              have hI5 : ctx5.media_task_id = id := by
                have h5 := retryExec_ok_imp _
                    (fun a => a.media_task_id = ctx4.media_task_id)
                    (fun i a ha => upload_ok_id env.storage ctx4 a ha)
                    max_retries 0 ctx5 hv5
                rw [h5, hI4]
              refine ⟨?_, ?_, ?_, ?_⟩
              · simp [commitUpdate, progressCommits, validateFields, thumbnailFields,
                  convertFields, watermarkFields, uploadFields, finalizeFields, noFields]
              · simp [commitUpdate, progressCommits, validateFields, thumbnailFields,
                  convertFields, watermarkFields, uploadFields, finalizeFields, noFields]
              · simp [commitUpdate, progressCommits, validateFields, thumbnailFields,
                  convertFields, watermarkFields, uploadFields, finalizeFields, noFields]
              · intro r hrow
                have hI0 : (initialCtx id p).media_task_id = id := rfl
                simp only [commitUpdate, hI0, hI1, hI2, hI3, hI4, hI5]
                norm_num
                have h1 := findRow_update_some hrow validateFields 1
                have h2 := findRow_update_some h1 (thumbnailFields ctx2) 2
                have h3 := findRow_update_some h2 convertFields 3
                have h4 := findRow_update_some h3 watermarkFields 4
                have h5 := findRow_update_some h4 uploadFields 5
                have h6 := findRow_update_some h5 (finalizeFields ctx6) 6
                rw [h6]
                exact ⟨_, rfl, rfl, rfl⟩

/-- Witness for C8: the image happy path over local storage completes
and exhibits exactly the six checkpoints. -/
theorem C8_progress_checkpoints_witness :
    (run_media_pipeline (plainEnv true 5) [queuedRow "w1" "a.jpg"] "w1"
        "/tmp/media/input/w1_a.jpg").2 = true ∧
    (progressCommits (run_media_pipeline (plainEnv true 5) [queuedRow "w1" "a.jpg"] "w1"
        "/tmp/media/input/w1_a.jpg").1.commits = [10, 25, 55, 75, 90, 100] ∧
      List.Chain' (· < ·) (progressCommits (run_media_pipeline (plainEnv true 5)
        [queuedRow "w1" "a.jpg"] "w1" "/tmp/media/input/w1_a.jpg").1.commits) ∧
      (progressCommits (run_media_pipeline (plainEnv true 5) [queuedRow "w1" "a.jpg"] "w1"
        "/tmp/media/input/w1_a.jpg").1.commits).getLast? = some 100 ∧
      (∀ r, findRow [queuedRow "w1" "a.jpg"] "w1" = some r →
        (findRow (run_media_pipeline (plainEnv true 5) [queuedRow "w1" "a.jpg"] "w1"
          "/tmp/media/input/w1_a.jpg").1.store "w1").map
            (fun row => (row.status, row.progress)) = some ("completed", 100))) :=
  ⟨by decide,
    C8_progress_checkpoints (plainEnv true 5) [queuedRow "w1" "a.jpg"] "w1"
      "/tmp/media/input/w1_a.jpg" (by decide)⟩

/-- Prepending the image of 0 to a shifted range map gives the next
range map. -/
theorem cons_map_range {α : Type} (g : Nat → α) (n : Nat) :
    g 0 :: (List.range n).map (fun i => g (i + 1)) = (List.range (n + 1)).map g := by
  rw [List.range_succ_eq_map, List.map_cons, List.map_map]
  rfl

/-- An unresolved id yields the single not-found payload and ends the
stream at once. -/
theorem task_updates_not_found (reads : Nat → Option MediaTaskRow)
    (connected : Nat → Bool) (celeryState : String → Nat → Option String)
    (t fuel : Nat) (hc : connected t = true) (hr : reads t = none) :
    task_updates reads connected celeryState t (fuel + 1) = ([.notFound], true) := by
  unfold task_updates
  simp [hc, hr]

/-- If the row reads stay connected and non-terminal for k ticks and the
read at tick t+k is terminal, the stream emits exactly the k+1 snapshots
and ends. -/
theorem task_updates_terminal (reads : Nat → Option MediaTaskRow)
    (connected : Nat → Bool) (celeryState : String → Nat → Option String)
    (rows : Nat → MediaTaskRow) :
    ∀ (k t fuel : Nat),
      (∀ i, i ≤ k → connected (t + i) = true) →
      (∀ i, i ≤ k → reads (t + i) = some (rows (t + i))) →
      (∀ i, i < k → terminalStatus (rows (t + i)) = false) →
      terminalStatus (rows (t + k)) = true →
      k < fuel →
      task_updates reads connected celeryState t fuel =
        ((List.range (k + 1)).map
          (fun i => tickSnapshot celeryState (rows (t + i)) (t + i)), true) := by
  intro k
  induction k with
  | zero =>
    intro t fuel hc hr _hnt hterm hfuel
    obtain ⟨f, rfl⟩ : ∃ f, fuel = f + 1 := ⟨fuel - 1, by omega⟩
    have hc0 := hc 0 (Nat.le_refl 0)
    have hr0 := hr 0 (Nat.le_refl 0)
    rw [Nat.add_zero] at hc0 hr0
    rw [Nat.add_zero] at hterm
    have hone : List.range 1 = [0] := rfl
    unfold task_updates
    simp [hc0, hr0, hterm, hone]
  | succ m ih =>
    intro t fuel hc hr hnt hterm hfuel
    obtain ⟨f, rfl⟩ : ∃ f, fuel = f + 1 := ⟨fuel - 1, by omega⟩
    have hc0 := hc 0 (by omega)
    have hr0 := hr 0 (by omega)
    have hnt0 := hnt 0 (by omega)
    rw [Nat.add_zero] at hc0 hr0 hnt0
    have hrec := ih (t + 1) f
      (fun i hi => by
        have := hc (i + 1) (by omega)
        rwa [show t + (i + 1) = (t + 1) + i by omega] at this)
      (fun i hi => by
        have := hr (i + 1) (by omega)
        rwa [show t + (i + 1) = (t + 1) + i by omega] at this)
      (fun i hi => by
        have := hnt (i + 1) (by omega)
        rwa [show t + (i + 1) = (t + 1) + i by omega] at this)
      (by
        have := hterm
        rwa [show t + (m + 1) = (t + 1) + m by omega] at this)
      (by omega)
    unfold task_updates
    simp only [hc0, hr0, hnt0, hrec, Bool.not_true, Bool.false_eq_true, if_false]
    have hmaps : (List.range (m + 1)).map
          (fun i => tickSnapshot celeryState (rows (t + 1 + i)) (t + 1 + i)) =
        (List.range (m + 1)).map
          (fun i => tickSnapshot celeryState (rows (t + (i + 1))) (t + (i + 1))) := by
      apply List.map_congr_left
      intro i _
      have hx : t + 1 + i = t + (i + 1) := by omega
      rw [hx]
    rw [hmaps]
    exact congrArg (fun l => (l, true))
      (cons_map_range (fun j => tickSnapshot celeryState (rows (t + j)) (t + j)) (m + 1))

/-- If the subscriber disconnects at tick t+d after d connected,
non-terminal reads, the stream emits exactly those d snapshots and stops
(the disconnected tick sends nothing). -/
theorem task_updates_disconnect (reads : Nat → Option MediaTaskRow)
    (connected : Nat → Bool) (celeryState : String → Nat → Option String)
    (rows : Nat → MediaTaskRow) :
    ∀ (d t fuel : Nat),
      (∀ i, i < d → connected (t + i) = true) →
      (∀ i, i < d → reads (t + i) = some (rows (t + i))) →
      (∀ i, i < d → terminalStatus (rows (t + i)) = false) →
      connected (t + d) = false →
      d < fuel →
      task_updates reads connected celeryState t fuel =
        ((List.range d).map
          (fun i => tickSnapshot celeryState (rows (t + i)) (t + i)), true) := by
  intro d
  induction d with
  | zero =>
    intro t fuel _hc _hr _hnt hdis hfuel
    obtain ⟨f, rfl⟩ : ∃ f, fuel = f + 1 := ⟨fuel - 1, by omega⟩
    rw [Nat.add_zero] at hdis
    unfold task_updates
    simp [hdis]
  | succ m ih =>
    intro t fuel hc hr hnt hdis hfuel
    obtain ⟨f, rfl⟩ : ∃ f, fuel = f + 1 := ⟨fuel - 1, by omega⟩
    have hc0 := hc 0 (by omega)
    have hr0 := hr 0 (by omega)
    have hnt0 := hnt 0 (by omega)
    rw [Nat.add_zero] at hc0 hr0 hnt0
    have hrec := ih (t + 1) f
      (fun i hi => by
        have := hc (i + 1) (by omega)
        rwa [show t + (i + 1) = (t + 1) + i by omega] at this)
      (fun i hi => by
        have := hr (i + 1) (by omega)
        rwa [show t + (i + 1) = (t + 1) + i by omega] at this)
      (fun i hi => by
        have := hnt (i + 1) (by omega)
        rwa [show t + (i + 1) = (t + 1) + i by omega] at this)
      (by
        have := hdis
        rwa [show t + (m + 1) = (t + 1) + m by omega] at this)
      (by omega)
    unfold task_updates
    simp only [hc0, hr0, hnt0, hrec, Bool.not_true, Bool.false_eq_true, if_false]
    have hmaps : (List.range m).map
          (fun i => tickSnapshot celeryState (rows (t + 1 + i)) (t + 1 + i)) =
        (List.range m).map
          (fun i => tickSnapshot celeryState (rows (t + (i + 1))) (t + (i + 1))) := by
      apply List.map_congr_left
      intro i _
      have hx : t + 1 + i = t + (i + 1) := by omega
      rw [hx]
    rw [hmaps]
    exact congrArg (fun l => (l, true))
      (cons_map_range (fun j => tickSnapshot celeryState (rows (t + j)) (t + j)) m)

/-- A concrete row mid-processing, for stream scenarios. -/
def processingRow : MediaTaskRow :=
  { id := "t3", user_id := "u", original_filename := "a.jpg",
    status := "processing", progress := 25, celery_task_id := some "c3",
    source_path := "/tmp/media/input/t3_a.jpg",
    thumbnail_path := some "/tmp/media/thumb/t3_a_thumb.jpg",
    outputs := none, error_message := none, updated_at := 2 }

/-- The per-tick rows of the concrete stream scenario: processing at
tick 0, completed afterwards. -/
def wsRows : Nat → MediaTaskRow := fun i => if i = 0 then processingRow else completedRow

/-- Claim C9: a status-stream subscription emits, within any observation
window long enough, exactly one not-found payload and ends when the id
does not resolve; otherwise it emits one snapshot per tick and ends —
emitting nothing further — as soon as the read status is terminal
(completed or failed, that terminal snapshot being the last emission) or
the subscriber disconnects, whichever comes first. -/
theorem C9_stream_termination :
    (∀ (reads : Nat → Option MediaTaskRow) (connected : Nat → Bool)
        (celeryState : String → Nat → Option String) (fuel : Nat),
      connected 0 = true → reads 0 = none → 1 ≤ fuel →
      task_updates reads connected celeryState 0 fuel = ([.notFound], true))
    ∧ (∀ (reads : Nat → Option MediaTaskRow) (connected : Nat → Bool)
        (celeryState : String → Nat → Option String) (rows : Nat → MediaTaskRow)
        (k fuel : Nat),
      (∀ i, i ≤ k → connected i = true) →
      (∀ i, i ≤ k → reads i = some (rows i)) →
      (∀ i, i < k → terminalStatus (rows i) = false) →
      terminalStatus (rows k) = true →
      k < fuel →
      task_updates reads connected celeryState 0 fuel =
        ((List.range (k + 1)).map (fun i => tickSnapshot celeryState (rows i) i), true))
    ∧ (∀ (reads : Nat → Option MediaTaskRow) (connected : Nat → Bool)
        (celeryState : String → Nat → Option String) (rows : Nat → MediaTaskRow)
        (d fuel : Nat),
      (∀ i, i < d → connected i = true) →
      (∀ i, i < d → reads i = some (rows i)) →
      (∀ i, i < d → terminalStatus (rows i) = false) →
      connected d = false →
      d < fuel →
      task_updates reads connected celeryState 0 fuel =
        ((List.range d).map (fun i => tickSnapshot celeryState (rows i) i), true)) := by
  refine ⟨?_, ?_, ?_⟩
  · intro reads connected celeryState fuel hc hr hfuel
    obtain ⟨f, rfl⟩ : ∃ f, fuel = f + 1 := ⟨fuel - 1, by omega⟩
    exact task_updates_not_found reads connected celeryState 0 f hc hr
  · intro reads connected celeryState rows k fuel hc hr hnt hterm hfuel
    have := task_updates_terminal reads connected celeryState rows k 0 fuel
      (fun i hi => by simpa using hc i hi)
      (fun i hi => by simpa using hr i hi)
      (fun i hi => by simpa using hnt i hi)
      (by simpa using hterm) hfuel
    simpa using this
  · intro reads connected celeryState rows d fuel hc hr hnt hdis hfuel
    have := task_updates_disconnect reads connected celeryState rows d 0 fuel
      (fun i hi => by simpa using hc i hi)
      (fun i hi => by simpa using hr i hi)
      (fun i hi => by simpa using hnt i hi)
      (by simpa using hdis) hfuel
    simpa using this

/-- Witness for C9: a stream on an unknown id, a stream reaching the
completed row at tick 1, and a stream disconnected at tick 1. -/
theorem C9_stream_termination_witness :
    task_updates (fun _ => none) (fun _ => true) (fun _ _ => none) 0 3 =
      ([.notFound], true) ∧
    task_updates (fun i => some (wsRows i)) (fun _ => true) (fun _ _ => none) 0 3 =
      ((List.range 2).map (fun i => tickSnapshot (fun _ _ => none) (wsRows i) i), true) ∧
    task_updates (fun i => some (wsRows i)) (fun i => decide (i < 1)) (fun _ _ => none) 0 3 =
      ((List.range 1).map (fun i => tickSnapshot (fun _ _ => none) (wsRows i) i), true) :=
  ⟨C9_stream_termination.1 (fun _ => none) (fun _ => true) (fun _ _ => none) 3 rfl rfl
      (by omega),
    C9_stream_termination.2.1 (fun i => some (wsRows i)) (fun _ => true) (fun _ _ => none)
      wsRows 1 3 (fun i _ => rfl) (fun i _ => rfl)
      (fun i hi => by
        have hi0 : i = 0 := by omega
        subst hi0
        rfl)
      (by decide) (by omega),
    C9_stream_termination.2.2 (fun i => some (wsRows i)) (fun i => decide (i < 1))
      (fun _ _ => none) wsRows 1 3
      (fun i hi => by
        have hi0 : i = 0 := by omega
        subst hi0
        rfl)
      (fun i _ => rfl)
      (fun i hi => by
        have hi0 : i = 0 := by omega
        subst hi0
        rfl)
      (by decide) (by omega)⟩
